import Mathlib

/-!
# Verification of `validate_tool_safety.py`

A shallow embedding of the Claude Code tool-safety hook: deterministic
substring rule checks (`check_unsafe_command`, `check_never_whitelist`,
`check_safe_command`), the whitelist store step of `add_to_whitelist`
over the JSON settings document, and the decision flow of `main`.

Modelling conventions:
* Python strings are Lean `String`; `str.lower()` is modelled as ASCII
  case mapping (`pyLower`), which is what Python's `lower` does on the
  ASCII range covering every rule marker.
* Python's substring test `pat in s` is `strContains s pat`.
* JSON values are the inductive `JVal`; objects are ordered association
  lists, matching CPython dict insertion order; JSON numbers are
  modelled as integers (no claim involves numeric fields).
* Effectful functions are modelled as pure functions over an explicit
  file state and explicit oracle results, returning `Except Unit _`:
  `Except.ok` is normal termination of the process with exit status 0,
  `Except.error ()` is an uncaught Python exception (e.g. calling
  `.setdefault` on a non-dict JSON value).  Outcome records carry flags
  recording whether each oracle entry point was invoked and what, if
  anything, was written to the settings file.
-/

namespace ToolSafety

/-- ASCII lowering of one character; Python's `str.lower` acts exactly so on
the ASCII range, and every rule marker is ASCII. -/
def lowerChar (c : Char) : Char :=
  if 65 ≤ c.toNat ∧ c.toNat ≤ 90 then Char.ofNat (c.toNat + 32) else c

/-- `command.lower()`, restricted to the ASCII case mapping. -/
def pyLower (s : String) : String := String.mk (s.data.map lowerChar)

/-- `pat` is a leading segment of `s` (over character lists). -/
def startsWithL : List Char → List Char → Bool
  | [], _ => true
  | _ :: _, [] => false
  | a :: as, b :: bs => a == b && startsWithL as bs

/-- `pat` occurs as a contiguous substring of `s`. -/
def containsSubL (pat : List Char) : List Char → Bool
  | [] => startsWithL pat []
  | c :: rest => startsWithL pat (c :: rest) || containsSubL pat rest

/-- Python's substring test `pat in s` on strings. -/
def strContains (s pat : String) : Bool := containsSubL pat.data s.data

/-- `UNSAFE_COMMANDS`: markers of commands that are never safe to run. -/
def UNSAFE_COMMANDS : List String := [
  "rm ", "rm\t", "rmdir", "unlink",
  "git clean", "git reset --hard", "git reset --mixed",
  "--force", " -f ", " -rf", "-rf ",
  ".env", ".ssh", ".aws", ".gnupg", "credentials", "secrets",
  "/etc/passwd", "/etc/shadow",
  "sk-", "api_key=", "apikey=", "API_KEY=",
  "token=", "TOKEN=", "secret=", "SECRET=",
  "password=", "PASSWORD=", "passwd=",
  "Bearer ", "Basic ",
  "sudo ", "sudo\t", "doas ",
  "chmod ", "chown ", "chgrp ",
  "systemctl", "service ",
  "pkill ", "kill ", "killall ",
  "eval ", "exec ",
  "docker run", "docker exec",
  "kubectl run", "kubectl exec",
  "curl ", "wget ", "nc ", "netcat",
  "brew install", "brew upgrade",
  "pip install", "npm install", "yarn add", "pnpm install", "bun install"]

/-- `NEVER_WHITELIST_COMMANDS`: safe to run once, never auto-whitelisted. -/
def NEVER_WHITELIST_COMMANDS : List String := [
  "git push",
  "docker run", "docker exec",
  "kubectl exec", "kubectl run", "kubectl delete", "kubectl apply"]

/-- `SAFE_COMMAND_BASES`: markers of commands safe to run and whitelist. -/
def SAFE_COMMAND_BASES : List String := [
  "--version", "-v", "-V", "version",
  "git status", "git log", "git diff", "git branch", "git show", "git remote",
  "go build", "go test", "go run", "go mod", "go version",
  "cargo build", "cargo test", "cargo run", "cargo check",
  "npm test", "npm run", "npm start",
  "make", "cmake",
  "pytest", "python -m pytest",
  "ls", "cat ", "head ", "tail ", "less ", "more ",
  "find ", "grep ", "wc ", "du ", "df "]

/-- Tools that always bypass the hook (read-only by design). -/
def ALWAYS_SAFE_TOOLS : List String := ["Read", "Glob", "Grep", "WebSearch", "WebFetch"]

/-- Tools that always defer to the caller's permission system. -/
def ALWAYS_ASK_TOOLS : List String := ["Task", "Skill"]

/-- `check_unsafe_command`: the lower-cased command contains some marker of
`UNSAFE_COMMANDS`. -/
def check_unsafe_command (command : String) : Bool :=
  UNSAFE_COMMANDS.any (fun pattern => strContains (pyLower command) pattern)

/-- `check_never_whitelist`: the lower-cased command contains some marker of
`NEVER_WHITELIST_COMMANDS`. -/
def check_never_whitelist (command : String) : Bool :=
  NEVER_WHITELIST_COMMANDS.any (fun pattern => strContains (pyLower command) pattern)

/-- `check_safe_command`: the lower-cased command contains some marker of
`SAFE_COMMAND_BASES`. -/
def check_safe_command (command : String) : Bool :=
  SAFE_COMMAND_BASES.any (fun pattern => strContains (pyLower command) pattern)

/-- JSON values; objects are ordered association lists (CPython dicts keep
insertion order), numbers are modelled as integers. -/
inductive JVal where
  | null : JVal
  | bool (b : Bool) : JVal
  | num (n : Int) : JVal
  | str (s : String) : JVal
  | arr (items : List JVal) : JVal
  | obj (fields : List (String × JVal)) : JVal
deriving Repr

/-- `d[k]` on an ordered dict: the value at the first (unique) binding. -/
def lookupField : List (String × JVal) → String → Option JVal
  | [], _ => none
  | (k', v) :: rest, k => if k' == k then some v else lookupField rest k

/-- Overwrite the binding of `k` in place, or append `k ↦ v` at the end when
absent — the net effect on an ordered dict of `d.setdefault(k, ...)` followed
by mutation of the returned reference. -/
def setField : List (String × JVal) → String → JVal → List (String × JVal)
  | [], k, v => [(k, v)]
  | (k', v') :: rest, k, v =>
      if k' == k then (k', v) :: rest else (k', v') :: setField rest k v

/-- The bindings of an ordered dict other than `k`, in order. -/
def stripField (k : String) : List (String × JVal) → List (String × JVal)
  | [] => []
  | kv :: rest => if kv.1 == k then stripField k rest else kv :: stripField k rest

/-- Python's `pattern in allow_list` for a `str` pattern and a JSON list:
`==` between a `str` and a non-`str` is `False`. -/
def containsStr (items : List JVal) (pattern : String) : Bool :=
  items.any (fun x => match x with
    | JVal.str s => s == pattern
    | _ => false)

/-- Python truthiness of a JSON value (`if safe:`). -/
def truthyJ : JVal → Bool
  | JVal.null => false
  | JVal.bool b => b
  | JVal.num n => n != 0
  | JVal.str s => s != ""
  | JVal.arr items => !items.isEmpty
  | JVal.obj fields => !fields.isEmpty

/-- State of the settings file: absent, present but not valid JSON, or
present with parsed content `d`. -/
inductive FileContent where
  | missing : FileContent
  | malformed : FileContent
  | parsed (d : JVal) : FileContent

/-- The `settings` value `add_to_whitelist` starts from: a missing or
malformed file is treated as the empty document (`settings = {}` in both the
`not exists` branch and the `JSONDecodeError` handler). -/
def readSettings : FileContent → JVal
  | FileContent.missing => JVal.obj []
  | FileContent.malformed => JVal.obj []
  | FileContent.parsed d => d

/-- The read-merge-write core of `add_to_whitelist` (its last nine lines):
`setdefault("permissions", {})`, `setdefault("allow", [])`, then append
`pattern` and write unless already present.  `Except.ok none` means no write
happened; `Except.ok (some d)` means document `d` was written;
`Except.error ()` is an uncaught `AttributeError`/`TypeError` when a value on
the path has the wrong JSON type. -/
def storeStep (doc : JVal) (pattern : String) : Except Unit (Option JVal) :=
  match doc with
  | JVal.obj fields =>
    match (lookupField fields "permissions").getD (JVal.obj []) with
    | JVal.obj pfields =>
      match (lookupField pfields "allow").getD (JVal.arr []) with
      | JVal.arr items =>
        if containsStr items pattern then
          Except.ok none
        else
          Except.ok (some (JVal.obj (setField fields "permissions"
            (JVal.obj (setField pfields "allow"
              (JVal.arr (items ++ [JVal.str pattern])))))))
      | JVal.str s =>
        -- `pattern in allow_list` on a `str` is a substring test; on a hit
        -- the append is skipped, on a miss `.append` raises.
        if strContains s pattern then Except.ok none else Except.error ()
      | JVal.obj ofields =>
        -- `pattern in allow_list` on a dict tests keys; `.append` raises.
        if ofields.any (fun kv => kv.1 == pattern) then Except.ok none
        else Except.error ()
      | _ => Except.error ()
    | _ => Except.error ()
  | _ => Except.error ()

/-- Effects of one `add_to_whitelist` call: whether `get_whitelist_pattern`
(the pattern oracle) was invoked, and the document written, if any. -/
structure WhitelistOutcome where
  oracleCalled : Bool
  written : Option JVal
deriving Repr

/-- `add_to_whitelist(command)`, with the pattern oracle's answer `propose`
(`none` models `get_whitelist_pattern` returning `None`) and the settings
file state `file` passed explicitly. -/
def add_to_whitelist (propose : Option String) (file : FileContent)
    (command : String) : Except Unit WhitelistOutcome :=
  if check_never_whitelist command then Except.ok ⟨false, none⟩
  else if check_unsafe_command command then Except.ok ⟨false, none⟩
  else
    match propose with
    | none => Except.ok ⟨true, none⟩
    | some pattern =>
      -- `if not pattern: return` also drops a falsy (empty) pattern string.
      if pattern = "" then Except.ok ⟨true, none⟩
      else
        match storeStep (readSettings file) pattern with
        | Except.ok w => Except.ok ⟨true, w⟩
        | Except.error () => Except.error ()

mutual
/-- Python `repr()` of a JSON value, as `str()` falls back to for
non-string values inside an f-string.  Quote/backslash escaping inside
nested strings is not modelled (no claim involves it). -/
def pyRepr : JVal → String
  | JVal.null => "None"
  | JVal.bool true => "True"
  | JVal.bool false => "False"
  | JVal.num n => toString n
  | JVal.str s => "'" ++ s ++ "'"
  | JVal.arr items => "[" ++ pyReprItems items ++ "]"
  | JVal.obj fields => "\x7b" ++ pyReprFields fields ++ "\x7d"

/-- Comma-separated `repr`s of list items. -/
def pyReprItems : List JVal → String
  | [] => ""
  | [v] => pyRepr v
  | v :: rest => pyRepr v ++ ", " ++ pyReprItems rest

/-- Comma-separated `'key': repr(value)` renderings of dict entries. -/
def pyReprFields : List (String × JVal) → String
  | [] => ""
  | [kv] => "'" ++ kv.1 ++ "': " ++ pyRepr kv.2
  | kv :: rest => "'" ++ kv.1 ++ "': " ++ pyRepr kv.2 ++ ", " ++ pyReprFields rest
end

/-- Python `str()` of a JSON value, as interpolated by an f-string. -/
def pyStr : JVal → String
  | JVal.str s => s
  | v => pyRepr v

/-- The JSON object printed for an allow decision. -/
def allowDecision (reason : String) : JVal :=
  JVal.obj [("hookSpecificOutput", JVal.obj
    [("hookEventName", JVal.str "PreToolUse"),
     ("permissionDecision", JVal.str "allow"),
     ("permissionDecisionReason", JVal.str reason)])]

/-- `make_decision(safe, reason)`: an allow object when `safe` is truthy,
`None` otherwise (silence defers to the caller's permission system). -/
def make_decision (safe : Bool) (reason : String) : Option JVal :=
  if safe then some (allowDecision reason) else none

/-- The `permissionDecisionReason` carried by a printed decision object. -/
def decisionReason : JVal → Option String
  | JVal.obj fields =>
    match lookupField fields "hookSpecificOutput" with
    | some (JVal.obj hfields) =>
      match lookupField hfields "permissionDecisionReason" with
      | some (JVal.str r) => some r
      | _ => none
    | _ => none
  | _ => none

/-- Observable effects of one hook invocation: the decision object printed
on stdout (if any), whether the safety classifier `query_ollama` was
invoked, whether the pattern oracle `get_whitelist_pattern` was invoked,
and the settings document written (if any).  An `Except.ok` outcome is a
`sys.exit(0)` termination. -/
structure MainOutcome where
  output : Option JVal
  classifierCalled : Bool
  patternOracleCalled : Bool
  written : Option JVal
deriving Repr

/-- Lines 366–386 of `main`: the oracle fallback for invocations the rule
checks did not resolve.  `classify` is `query_ollama`'s result: `none` on
transport error, timeout, or unparsable content, `some fields` the parsed
embedded JSON object.  `isBash` and `command` carry the shell-command
context used by the auto-whitelist step. -/
def oraclePhase (classify : Option (List (String × JVal))) (propose : Option String)
    (file : FileContent) (isBash : Bool) (command : String) :
    Except Unit MainOutcome :=
  match classify with
  | none => Except.ok ⟨none, true, false, none⟩
  | some fields =>
    let safe := truthyJ ((lookupField fields "safe").getD (JVal.bool false))
    let reason := pyStr ((lookupField fields "reason").getD (JVal.str "LLM assessment"))
    let decision := make_decision safe ("LLM assessment: " ++ reason)
    if safe && isBash && command != "" then
      match add_to_whitelist propose file command with
      | Except.ok w => Except.ok ⟨decision, true, w.oracleCalled, w.written⟩
      | Except.error () => Except.error ()
    else
      Except.ok ⟨decision, true, false, none⟩

/-- `tool_input.get("command", "")`. -/
def getCommand (tool_input : List (String × JVal)) : JVal :=
  (lookupField tool_input "command").getD (JVal.str "")

/-- `main` after the stdin parse: tool-class shortcuts, the Bash rule
checks, then the oracle fallback.  A Bash invocation whose `command` is not
a JSON string raises in `check_unsafe_command` (`.lower()` on a non-str),
modelled by `Except.error ()`. -/
def runHook (classify : Option (List (String × JVal))) (propose : Option String)
    (file : FileContent) (tool_name : String) (tool_input : List (String × JVal)) :
    Except Unit MainOutcome :=
  if ALWAYS_SAFE_TOOLS.contains tool_name then Except.ok ⟨none, false, false, none⟩
  else if ALWAYS_ASK_TOOLS.contains tool_name then Except.ok ⟨none, false, false, none⟩
  else if tool_name == "Bash" then
    match getCommand tool_input with
    | JVal.str command =>
      if check_unsafe_command command then Except.ok ⟨none, false, false, none⟩
      else if check_safe_command command then
        match add_to_whitelist propose file command with
        | Except.ok w =>
          Except.ok ⟨make_decision true "Code safety check: known safe command",
            false, w.oracleCalled, w.written⟩
        | Except.error () => Except.error ()
      else oraclePhase classify propose file true command
    | _ => Except.error ()
  else oraclePhase classify propose file false ""

/-- C1: a command matching `check_never_whitelist` or `check_unsafe_command`
makes `add_to_whitelist` a no-op — for every oracle proposal and every
settings-file state, the pattern oracle is not called and nothing is
written, so the settings file is neither created nor modified. -/
theorem guarded_add_persists_nothing (propose : Option String) (file : FileContent)
    (command : String)
    (h : check_never_whitelist command = true ∨ check_unsafe_command command = true) :
    add_to_whitelist propose file command = Except.ok ⟨false, none⟩ := by
  unfold add_to_whitelist
  rcases h with h | h
  · simp [h]
  · simp [h]

/-- Witness for C1 at the never-whitelistable command `git push origin main`. -/
theorem guarded_add_persists_nothing_witness :
    (check_never_whitelist "git push origin main" = true ∨
      check_unsafe_command "git push origin main" = true) ∧
    add_to_whitelist (some "Bash(git push:*)") FileContent.missing
      "git push origin main" = Except.ok ⟨false, none⟩ :=
  ⟨Or.inl (by decide),
   guarded_add_persists_nothing (some "Bash(git push:*)") FileContent.missing
     "git push origin main" (Or.inl (by decide))⟩

/-- C3: a Bash invocation whose command matches `check_unsafe_command`
terminates normally with no output, no oracle call of either kind, and no
whitelist write. -/
theorem unsafe_skips_oracle (classify : Option (List (String × JVal)))
    (propose : Option String) (file : FileContent)
    (tool_input : List (String × JVal)) (command : String)
    (hc : getCommand tool_input = JVal.str command)
    (hu : check_unsafe_command command = true) :
    runHook classify propose file "Bash" tool_input =
      Except.ok ⟨none, false, false, none⟩ := by
  have h1 : ALWAYS_SAFE_TOOLS.contains "Bash" = false := by decide
  have h2 : ALWAYS_ASK_TOOLS.contains "Bash" = false := by decide
  simp [runHook, h1, h2, hc, hu]

/-- Witness for C3 at `git push --force origin main` (unsafe marker
`--force`). -/
theorem unsafe_skips_oracle_witness :
    (getCommand [("command", JVal.str "git push --force origin main")] =
       JVal.str "git push --force origin main" ∧
     check_unsafe_command "git push --force origin main" = true) ∧
    runHook none none FileContent.missing "Bash"
        [("command", JVal.str "git push --force origin main")] =
      Except.ok ⟨none, false, false, none⟩ :=
  ⟨⟨rfl, by decide⟩,
   unsafe_skips_oracle none none FileContent.missing
     [("command", JVal.str "git push --force origin main")]
     "git push --force origin main" rfl (by decide)⟩

/-- C4: whenever an invocation reaches the oracle check and `query_ollama`
yields `None` (transport error, timeout, or no parsable embedded JSON), the
hook terminates normally with no output and no whitelist write — it never
renders a safe verdict. -/
theorem oracle_failure_defers (propose : Option String) (file : FileContent)
    (isBash : Bool) (command : String) :
    oraclePhase none propose file isBash command =
      Except.ok ⟨none, true, false, none⟩ := rfl

/-- C5: every marker of `UNSAFE_COMMANDS` contained anywhere in the
lower-cased command — also as a substring of an unrelated token — makes
`check_unsafe_command` true. -/
theorem unsafe_marker_substring_sound (marker : String)
    (hm : marker ∈ UNSAFE_COMMANDS) (command : String)
    (h : strContains (pyLower command) marker = true) :
    check_unsafe_command command = true := by
  unfold check_unsafe_command
  exact List.any_eq_true.mpr ⟨marker, hm, h⟩

/-- Witness for C5: marker `.env` inside the unrelated token
`archive.envelope`. -/
theorem unsafe_marker_substring_sound_witness :
    (".env" ∈ UNSAFE_COMMANDS ∧
      strContains (pyLower "tar xf archive.envelope") ".env" = true) ∧
    check_unsafe_command "tar xf archive.envelope" = true :=
  ⟨⟨by decide, by decide⟩,
   unsafe_marker_substring_sound ".env" (by decide) "tar xf archive.envelope"
     (by decide)⟩

/-- C7: when the document's `permissions.allow` list already contains the
pattern, the store step of `add_to_whitelist` performs no write at all, so
the stored list is unchanged in length and order. -/
theorem whitelist_insert_idempotent (fields pfields : List (String × JVal))
    (items : List JVal) (p : String)
    (hperm : lookupField fields "permissions" = some (JVal.obj pfields))
    (hallow : lookupField pfields "allow" = some (JVal.arr items))
    (hmem : containsStr items p = true) :
    storeStep (JVal.obj fields) p = Except.ok none := by
  simp [storeStep, hperm, hallow, hmem]

/-- Witness for C7 on a document already holding `Bash(ls:*)`. -/
theorem whitelist_insert_idempotent_witness :
    (lookupField [("permissions",
        JVal.obj [("allow", JVal.arr [JVal.str "Bash(ls:*)"])])] "permissions" =
        some (JVal.obj [("allow", JVal.arr [JVal.str "Bash(ls:*)"])]) ∧
     lookupField [("allow", JVal.arr [JVal.str "Bash(ls:*)"])] "allow" =
        some (JVal.arr [JVal.str "Bash(ls:*)"]) ∧
     containsStr [JVal.str "Bash(ls:*)"] "Bash(ls:*)" = true) ∧
    storeStep (JVal.obj [("permissions",
        JVal.obj [("allow", JVal.arr [JVal.str "Bash(ls:*)"])])]) "Bash(ls:*)" =
      Except.ok none :=
  ⟨⟨rfl, rfl, by decide⟩,
   whitelist_insert_idempotent
     [("permissions", JVal.obj [("allow", JVal.arr [JVal.str "Bash(ls:*)"])])]
     [("allow", JVal.arr [JVal.str "Bash(ls:*)"])]
     [JVal.str "Bash(ls:*)"] "Bash(ls:*)" rfl rfl (by decide)⟩

/-- C9: if the settings file exists but is not valid JSON, a write for a
command that passes the never-whitelist and unsafe re-checks still
succeeds, replacing the malformed content with a fresh document whose
`permissions.allow` list holds exactly the proposed pattern. -/
theorem malformed_settings_replaced (command p : String)
    (h1 : check_never_whitelist command = false)
    (h2 : check_unsafe_command command = false)
    (h3 : ¬ p = "") :
    add_to_whitelist (some p) FileContent.malformed command =
      Except.ok ⟨true, some (JVal.obj [("permissions",
        JVal.obj [("allow", JVal.arr [JVal.str p])])])⟩ := by
  simp [add_to_whitelist, h1, h2, h3, readSettings, storeStep, containsStr,
    lookupField, setField]

/-- Witness for C9 at `go test ./...` with proposal `Bash(go test:*)`. -/
theorem malformed_settings_replaced_witness :
    (check_never_whitelist "go test ./..." = false ∧
     check_unsafe_command "go test ./..." = false ∧
     ¬ "Bash(go test:*)" = "") ∧
    add_to_whitelist (some "Bash(go test:*)") FileContent.malformed "go test ./..." =
      Except.ok ⟨true, some (JVal.obj [("permissions",
        JVal.obj [("allow", JVal.arr [JVal.str "Bash(go test:*)"])])])⟩ :=
  ⟨⟨by decide, by decide, by decide⟩,
   malformed_settings_replaced "go test ./..." "Bash(go test:*)"
     (by decide) (by decide) (by decide)⟩

/-- C10: when the oracle's reply parses to a JSON object with no `safe`
key, `safe` defaults to false: the hook terminates normally with no output
and no whitelist write. -/
theorem missing_safe_key_defers (fields : List (String × JVal))
    (propose : Option String) (file : FileContent) (isBash : Bool)
    (command : String)
    (h : lookupField fields "safe" = none) :
    oraclePhase (some fields) propose file isBash command =
      Except.ok ⟨none, true, false, none⟩ := by
  simp [oraclePhase, h, truthyJ, make_decision]

/-- Witness for C10 on the reply object `\x7b"reason": "looks safe"\x7d`. -/
theorem missing_safe_key_defers_witness :
    lookupField [("reason", JVal.str "looks safe")] "safe" = none ∧
    oraclePhase (some [("reason", JVal.str "looks safe")]) none
        FileContent.missing true "ls" =
      Except.ok ⟨none, true, false, none⟩ :=
  ⟨rfl,
   missing_safe_key_defers [("reason", JVal.str "looks safe")] none
     FileContent.missing true "ls" rfl⟩

/-- C2: on a Bash command matching both `check_unsafe_command` and
`check_safe_command` the unsafe check fires first, so the hook terminates
normally with no output (no allow decision), no oracle call, and no
whitelist write — never a safe verdict. -/
theorem deny_wins (classify : Option (List (String × JVal)))
    (propose : Option String) (file : FileContent)
    (tool_input : List (String × JVal)) (command : String)
    (hc : getCommand tool_input = JVal.str command)
    (hu : check_unsafe_command command = true)
    (_hs : check_safe_command command = true) :
    runHook classify propose file "Bash" tool_input =
      Except.ok ⟨none, false, false, none⟩ := by
  have h1 : ALWAYS_SAFE_TOOLS.contains "Bash" = false := by decide
  have h2 : ALWAYS_ASK_TOOLS.contains "Bash" = false := by decide
  simp [runHook, h1, h2, hc, hu]

/-- Witness for C2 at `cat .env`: unsafe marker `.env` and safe-base marker
`cat ` both match. -/
theorem deny_wins_witness :
    (getCommand [("command", JVal.str "cat .env")] = JVal.str "cat .env" ∧
     check_unsafe_command "cat .env" = true ∧
     check_safe_command "cat .env" = true) ∧
    runHook none none FileContent.missing "Bash"
        [("command", JVal.str "cat .env")] =
      Except.ok ⟨none, false, false, none⟩ :=
  ⟨⟨rfl, by decide, by decide⟩,
   deny_wins none none FileContent.missing [("command", JVal.str "cat .env")]
     "cat .env" rfl (by decide) (by decide)⟩

/-- C6 counterexample: on the rule-safe command `git status` the hook does
emit an allow decision, but its reason is the literal
`Code safety check: known safe command`, not `rule: known safe` as the
claim states. -/
theorem rule_reason_counterexample :
    runHook none none FileContent.missing "Bash"
        [("command", JVal.str "git status")] =
      Except.ok ⟨some (allowDecision "Code safety check: known safe command"),
        false, true, none⟩ ∧
    decisionReason (allowDecision "Code safety check: known safe command") =
      some "Code safety check: known safe command" ∧
    "Code safety check: known safe command" ≠ "rule: known safe" :=
  ⟨rfl, rfl, by decide⟩

/-- C6 amended: on a Bash command that fails `check_unsafe_command` and
matches `check_safe_command`, whenever the hook terminates normally it
emits an explicit allow decision whose reason is the provenance string
`Code safety check: known safe command`. -/
theorem rule_safe_allow_reason (classify : Option (List (String × JVal)))
    (propose : Option String) (file : FileContent)
    (tool_input : List (String × JVal)) (command : String)
    (outcome : MainOutcome)
    (hc : getCommand tool_input = JVal.str command)
    (hu : check_unsafe_command command = false)
    (hs : check_safe_command command = true)
    (hr : runHook classify propose file "Bash" tool_input = Except.ok outcome) :
    outcome.output = some (allowDecision "Code safety check: known safe command") ∧
    decisionReason (allowDecision "Code safety check: known safe command") =
      some "Code safety check: known safe command" := by
  have h1 : ALWAYS_SAFE_TOOLS.contains "Bash" = false := by decide
  have h2 : ALWAYS_ASK_TOOLS.contains "Bash" = false := by decide
  refine ⟨?_, rfl⟩
  simp only [runHook, h1, h2, hc, hu, hs] at hr
  simp only [Bool.false_eq_true, if_false, if_true, beq_self_eq_true] at hr
  cases hw : add_to_whitelist propose file command with
  | ok w =>
    rw [hw] at hr
    simp only [Except.ok.injEq] at hr
    rw [← hr]
    rfl
  | error e =>
    rw [hw] at hr
    cases e
    simp at hr

/-- Witness for C6 amended at `git status` with a missing settings file. -/
theorem rule_safe_allow_reason_witness :
    (getCommand [("command", JVal.str "git status")] = JVal.str "git status" ∧
     check_unsafe_command "git status" = false ∧
     check_safe_command "git status" = true ∧
     runHook none none FileContent.missing "Bash"
         [("command", JVal.str "git status")] =
       Except.ok ⟨some (allowDecision "Code safety check: known safe command"),
         false, true, none⟩) ∧
    (MainOutcome.output ⟨some (allowDecision "Code safety check: known safe command"),
        false, true, none⟩ =
      some (allowDecision "Code safety check: known safe command") ∧
     decisionReason (allowDecision "Code safety check: known safe command") =
       some "Code safety check: known safe command") :=
  ⟨⟨rfl, by decide, by decide, rfl⟩,
   rule_safe_allow_reason none none FileContent.missing
     [("command", JVal.str "git status")] "git status"
     ⟨some (allowDecision "Code safety check: known safe command"), false, true, none⟩
     rfl (by decide) (by decide) rfl⟩

/-- After overwriting key `k`, looking up `k` gives the new value. -/
theorem lookupField_setField_self : ∀ (fs : List (String × JVal)) (k : String) (v : JVal),
    lookupField (setField fs k v) k = some v
  | [], k, v => by simp [setField, lookupField]
  | (k', v') :: rest, k, v => by
    by_cases h : (k' == k) = true
    · simp [setField, lookupField, h]
    · simp [setField, lookupField, h, lookupField_setField_self rest k v]

/-- Overwriting key `k` leaves the other bindings, in order, unchanged. -/
theorem stripField_setField : ∀ (fs : List (String × JVal)) (k : String) (v : JVal),
    stripField k (setField fs k v) = stripField k fs
  | [], k, v => by simp [setField, stripField]
  | (k', v') :: rest, k, v => by
    by_cases h : (k' == k) = true
    · simp [setField, stripField, h]
    · simp [setField, stripField, h, stripField_setField rest k v]

/-- C8: a successful write by the store step only touches
`permissions.allow`: the document stays an object whose other top-level
bindings are unchanged in value and order, the other bindings under
`permissions` are unchanged in value and order, and the new allow list is
exactly the pre-existing one (in order) with the single pattern appended
at its end. -/
theorem whitelist_write_frame (fields : List (String × JVal)) (p : String)
    (d' : JVal)
    (h : storeStep (JVal.obj fields) p = Except.ok (some d')) :
    ∃ fields' pfields',
      d' = JVal.obj fields' ∧
      stripField "permissions" fields' = stripField "permissions" fields ∧
      lookupField fields' "permissions" = some (JVal.obj pfields') ∧
      (∀ pf, lookupField fields "permissions" = some (JVal.obj pf) →
        stripField "allow" pfields' = stripField "allow" pf) ∧
      (∃ prevItems,
        lookupField pfields' "allow" =
          some (JVal.arr (prevItems ++ [JVal.str p])) ∧
        (∀ pf items, lookupField fields "permissions" = some (JVal.obj pf) →
          lookupField pf "allow" = some (JVal.arr items) →
          prevItems = items)) := by
  cases hperm : lookupField fields "permissions" with
  | none =>
    simp only [storeStep, hperm, Option.getD_none, lookupField, containsStr,
      List.any_nil, Bool.false_eq_true, if_false, List.nil_append, setField,
      Except.ok.injEq, Option.some.injEq] at h
    refine ⟨setField fields "permissions"
        (JVal.obj [("allow", JVal.arr [JVal.str p])]),
      [("allow", JVal.arr [JVal.str p])], h.symm,
      stripField_setField fields "permissions" _,
      lookupField_setField_self fields "permissions" _, ?_, [], ?_, ?_⟩
    · intro pf hpf
      simp at hpf
    · simp [lookupField]
    · intro pf items hpf _
      simp at hpf
  | some v =>
    cases v with
    | obj pf =>
      cases hallow : lookupField pf "allow" with
      | none =>
        simp only [storeStep, hperm, Option.getD_some, hallow, Option.getD_none,
          containsStr, List.any_nil, Bool.false_eq_true, if_false,
          List.nil_append, Except.ok.injEq, Option.some.injEq] at h
        refine ⟨setField fields "permissions"
            (JVal.obj (setField pf "allow" (JVal.arr [JVal.str p]))),
          setField pf "allow" (JVal.arr [JVal.str p]), h.symm,
          stripField_setField fields "permissions" _,
          lookupField_setField_self fields "permissions" _, ?_, [], ?_, ?_⟩
        · intro pf₀ hpf₀
          simp only [Option.some.injEq, JVal.obj.injEq] at hpf₀
          rw [← hpf₀]
          exact stripField_setField pf "allow" _
        · simpa using lookupField_setField_self pf "allow" (JVal.arr [JVal.str p])
        · intro pf₀ items hpf₀ hal₀
          simp only [Option.some.injEq, JVal.obj.injEq] at hpf₀
          rw [← hpf₀] at hal₀
          rw [hallow] at hal₀
          exact absurd hal₀ (by simp)
      | some w =>
        cases w with
        | arr items =>
          cases hmem : containsStr items p with
          | true => simp [storeStep, hperm, hallow, hmem] at h
          | false =>
            simp only [storeStep, hperm, Option.getD_some, hallow, hmem,
              Bool.false_eq_true, if_false, Except.ok.injEq,
              Option.some.injEq] at h
            refine ⟨setField fields "permissions"
                (JVal.obj (setField pf "allow"
                  (JVal.arr (items ++ [JVal.str p])))),
              setField pf "allow" (JVal.arr (items ++ [JVal.str p])), h.symm,
              stripField_setField fields "permissions" _,
              lookupField_setField_self fields "permissions" _, ?_, items, ?_, ?_⟩
            · intro pf₀ hpf₀
              simp only [Option.some.injEq, JVal.obj.injEq] at hpf₀
              rw [← hpf₀]
              exact stripField_setField pf "allow" _
            · exact lookupField_setField_self pf "allow" _
            · intro pf₀ items₀ hpf₀ hal₀
              simp only [Option.some.injEq, JVal.obj.injEq] at hpf₀
              rw [← hpf₀] at hal₀
              rw [hallow] at hal₀
              simp only [Option.some.injEq, JVal.arr.injEq] at hal₀
              exact hal₀
        | str s =>
          cases hsc : strContains s p with
          | true => simp [storeStep, hperm, hallow, hsc] at h
          | false => simp [storeStep, hperm, hallow, hsc] at h
        | obj ofs =>
          cases hks : ofs.any (fun kv => kv.1 == p) with
          | true => simp [storeStep, hperm, hallow, hks] at h
          | false => simp [storeStep, hperm, hallow, hks] at h
        | null => simp [storeStep, hperm, hallow] at h
        | bool b => simp [storeStep, hperm, hallow] at h
        | num n => simp [storeStep, hperm, hallow] at h
    | null => simp [storeStep, hperm] at h
    | bool b => simp [storeStep, hperm] at h
    | num n => simp [storeStep, hperm] at h
    | str s => simp [storeStep, hperm] at h
    | arr items => simp [storeStep, hperm] at h

/-- Witness for C8 on a document with an extra top-level field and an extra
field under `permissions`. -/
theorem whitelist_write_frame_witness :
    storeStep (JVal.obj [("editor", JVal.str "vim"),
        ("permissions", JVal.obj [("deny", JVal.arr [JVal.str "Bash(rm:*)"]),
          ("allow", JVal.arr [JVal.str "Bash(ls:*)"])])]) "Bash(go test:*)" =
      Except.ok (some (JVal.obj [("editor", JVal.str "vim"),
        ("permissions", JVal.obj [("deny", JVal.arr [JVal.str "Bash(rm:*)"]),
          ("allow", JVal.arr [JVal.str "Bash(ls:*)",
            JVal.str "Bash(go test:*)"])])])) ∧
    (∃ fields' pfields',
      (JVal.obj [("editor", JVal.str "vim"),
        ("permissions", JVal.obj [("deny", JVal.arr [JVal.str "Bash(rm:*)"]),
          ("allow", JVal.arr [JVal.str "Bash(ls:*)",
            JVal.str "Bash(go test:*)"])])]) = JVal.obj fields' ∧
      stripField "permissions" fields' =
        stripField "permissions" [("editor", JVal.str "vim"),
          ("permissions", JVal.obj [("deny", JVal.arr [JVal.str "Bash(rm:*)"]),
            ("allow", JVal.arr [JVal.str "Bash(ls:*)"])])] ∧
      lookupField fields' "permissions" = some (JVal.obj pfields') ∧
      (∀ pf, lookupField [("editor", JVal.str "vim"),
          ("permissions", JVal.obj [("deny", JVal.arr [JVal.str "Bash(rm:*)"]),
            ("allow", JVal.arr [JVal.str "Bash(ls:*)"])])] "permissions" =
            some (JVal.obj pf) →
        stripField "allow" pfields' = stripField "allow" pf) ∧
      (∃ prevItems,
        lookupField pfields' "allow" =
          some (JVal.arr (prevItems ++ [JVal.str "Bash(go test:*)"])) ∧
        (∀ pf items, lookupField [("editor", JVal.str "vim"),
            ("permissions", JVal.obj [("deny", JVal.arr [JVal.str "Bash(rm:*)"]),
              ("allow", JVal.arr [JVal.str "Bash(ls:*)"])])] "permissions" =
              some (JVal.obj pf) →
          lookupField pf "allow" = some (JVal.arr items) →
          prevItems = items))) :=
  ⟨rfl,
   whitelist_write_frame [("editor", JVal.str "vim"),
       ("permissions", JVal.obj [("deny", JVal.arr [JVal.str "Bash(rm:*)"]),
         ("allow", JVal.arr [JVal.str "Bash(ls:*)"])])] "Bash(go test:*)"
     (JVal.obj [("editor", JVal.str "vim"),
       ("permissions", JVal.obj [("deny", JVal.arr [JVal.str "Bash(rm:*)"]),
         ("allow", JVal.arr [JVal.str "Bash(ls:*)",
           JVal.str "Bash(go test:*)"])])]) rfl⟩

end ToolSafety
